import Mathlib

/-!
Verification development for the MMM-GeminiWaveform repository.

The repository has two halves:

* the browser module (src/unnamed/part_001, `Module.register("MMM-GeminiWaveform", ...)`)
  holding the amplitude smoother (`updateWaveformData`, `animateWaveform`) and the
  canvas renderer (`drawWaveform`);
* the node helper (src/MMM-GeminiWaveform/node_helper.js) holding the WebSocket
  bridge client (`connectWebSocket`, `scheduleReconnect`) and the Python backend
  supervisor (`startPythonBackend`, `stop`).

Numbers are modelled exactly: the smoother state lives in `ℚ` (all constants in the
source, 0.18 / 0.96 / 250, are exact rationals), the renderer geometry in `ℝ`
(it uses `Math.sin` / `Math.PI`).  JavaScript division is the one operation that
can produce a non-finite number in this code (`0/0 = NaN` when the renderer runs
with a single sample point), so the renderer models the result of a division as
an `Option ℝ`, `none` standing for a non-finite value (NaN or ±Infinity), which
every later arithmetic operation and `Math.sin` propagate.
-/

namespace GeminiWaveform

/-! ## Browser module state (src/unnamed/part_001)

`start` initialises `wavePhase = 0`, `currentAmplitude = 0`, `targetAmplitude = 0`,
`lastDataTime = Date.now()`.  Timestamps (`Date.now()` milliseconds) are modelled
as rationals passed in explicitly at each event. -/

structure ModuleState where
  wavePhase : ℚ
  currentAmplitude : ℚ
  targetAmplitude : ℚ
  lastDataTime : ℚ
  deriving Repr, DecidableEq

/-- The `data` object of a `WAVEFORM_DATA` notification (and of an inbound
`waveform` wire message): each of the two fields may be absent
(`undefined` in JavaScript), modelled as `Option`. -/
structure WaveformPayload where
  amplitude : Option ℚ
  phase : Option ℚ
  deriving Repr, DecidableEq

/-- Embedding of `updateWaveformData` (src/unnamed/part_001 lines 91-99):

    if (data.amplitude !== undefined) {
        this.targetAmplitude = data.amplitude;
        this.lastDataTime = Date.now();
    }
    if (data.phase !== undefined) {
        this.wavePhase = data.phase;
    }

`now` stands for the value of `Date.now()` at the call. -/
def updateWaveformData (data : WaveformPayload) (now : ℚ) (s : ModuleState) :
    ModuleState :=
  let s1 :=
    match data.amplitude with
    | some a => { s with targetAmplitude := a, lastDataTime := now }
    | none => s
  match data.phase with
  | some p => { s1 with wavePhase := p }
  | none => s1

/-- Embedding of the state mutations of one `animateWaveform` frame
(src/unnamed/part_001 lines 102-135), with `now = Date.now()` and
`animationSpeed` from the module config:

    this.currentAmplitude += (this.targetAmplitude - this.currentAmplitude) * 0.18;
    const timeSinceData = Date.now() - this.lastDataTime;
    if (timeSinceData > 250) { ... this.targetAmplitude *= 0.96; }
    this.wavePhase += this.config.animationSpeed;

The locals `effectiveAmplitude` / `idleAmp` only feed `drawWaveform` and do not
touch the state, so they are not part of this transition. -/
def animateStep (animationSpeed : ℚ) (now : ℚ) (s : ModuleState) : ModuleState :=
  let cur := s.currentAmplitude + (s.targetAmplitude - s.currentAmplitude) * 0.18
  let timeSinceData := now - s.lastDataTime
  let tgt := if timeSinceData > 250 then s.targetAmplitude * 0.96 else s.targetAmplitude
  { s with
    currentAmplitude := cur
    targetAmplitude := tgt
    wavePhase := s.wavePhase + animationSpeed }

/-- One event of the browser module run: either a `WAVEFORM_DATA` payload
delivered to `updateWaveformData`, or one `animateWaveform` frame; each carries
the wall-clock time at which it happens. -/
inductive ModuleEvent where
  | data (payload : WaveformPayload) (now : ℚ)
  | frame (now : ℚ)
  deriving Repr, DecidableEq

/-- Apply one event to the module state. -/
def moduleStep (animationSpeed : ℚ) (s : ModuleState) : ModuleEvent → ModuleState
  | .data payload now => updateWaveformData payload now s
  | .frame now => animateStep animationSpeed now s

/-- The state reached from the `start` initial state (`currentAmplitude = 0`,
`targetAmplitude = 0`, `wavePhase = 0`, `lastDataTime = t0`) after a sequence of
events. -/
def moduleRun (animationSpeed t0 : ℚ) (evs : List ModuleEvent) : ModuleState :=
  evs.foldl (moduleStep animationSpeed)
    { wavePhase := 0, currentAmplitude := 0, targetAmplitude := 0, lastDataTime := t0 }

/-- Fold step for `maxSample`: take the maximum with the amplitude of a `data`
event whose payload has a defined `amplitude` field, ignore everything else. -/
def sampleMax (m : ℚ) : ModuleEvent → ℚ
  | .data ⟨some a, _⟩ _ => max m a
  | _ => m

/-- The largest amplitude sample carried by the events (0 when there is none). -/
def maxSample (evs : List ModuleEvent) : ℚ :=
  evs.foldl sampleMax 0

/-- The invariant maintained by the smoother: both amplitude fields stay inside
`[0, M]`. -/
def SmootherInv (M : ℚ) (s : ModuleState) : Prop :=
  0 ≤ s.currentAmplitude ∧ s.currentAmplitude ≤ M ∧
    0 ≤ s.targetAmplitude ∧ s.targetAmplitude ≤ M

/-! ## Node helper state (src/MMM-GeminiWaveform/node_helper.js)

`start` initialises `config = null`, `ws = null`, `pythonProcess = null`,
`reconnectTimer = null`, `reconnectAttempts = 0`.  Handles are modelled as
booleans (set / unset); `relaunchPending` records the anonymous 5000 ms
`setTimeout` created by the Python child's `close` handler (lines 82-86), which
is stored in no field of the helper.  Handler side effects that do not touch
the helper state (logging, `sendSocketNotification`, `ws.send`, `spawn`,
`ws.close`, `kill`, `setTimeout`) are returned as a list of actions. -/

structure NodeHelperState where
  hasConfig : Bool
  wsSet : Bool
  pythonProcess : Bool
  reconnectTimer : Bool
  reconnectAttempts : ℕ
  relaunchPending : Bool
  deriving Repr, DecidableEq

inductive HelperAction where
  | forwardWaveform (data : WaveformPayload)
  | emitStatus (connected : Bool)
  | sendConfigHandshake
  | logInfo
  | logError
  | spawnChild
  | closeSocket
  | killChild
  | setReconnectTimer (delayMs : ℕ)
  | setRelaunchTimer (delayMs : ℕ)
  deriving Repr, DecidableEq

/-- The delay computed by `scheduleReconnect` (node_helper.js line 150) when the
counter has just been incremented to `attempts`:
`Math.min(1000 * Math.pow(2, this.reconnectAttempts), 30000)`. -/
def reconnectDelay (attempts : ℕ) : ℕ :=
  min (1000 * 2 ^ attempts) 30000

/-- Embedding of `scheduleReconnect` (node_helper.js lines 144-157): clear any
pending reconnect timer, increment `reconnectAttempts`, log, and set a new
timer with the exponential-backoff delay. -/
def scheduleReconnect (s : NodeHelperState) : NodeHelperState × List HelperAction :=
  let attempts := s.reconnectAttempts + 1
  ({ s with reconnectAttempts := attempts, reconnectTimer := true },
   [.logInfo, .setReconnectTimer (reconnectDelay attempts)])

/-- The helper state after `k` consecutive calls of `scheduleReconnect`
(one per connection failure). -/
def failRun (s : NodeHelperState) : ℕ → NodeHelperState
  | 0 => s
  | k + 1 => (scheduleReconnect (failRun s k)).1

/-- The delay scheduled by the `k`-th consecutive `scheduleReconnect` call
(`k ≥ 1`): the value of `reconnectDelay` at the counter reached after the
`k`-th increment. -/
def kthReconnectDelay (s : NodeHelperState) (k : ℕ) : ℕ :=
  reconnectDelay (failRun s k).reconnectAttempts

/-- Embedding of the `open` handler (node_helper.js lines 101-114): log, reset
`reconnectAttempts` to 0, emit connected status, send the configuration
handshake. -/
def onOpen (s : NodeHelperState) : NodeHelperState × List HelperAction :=
  ({ s with reconnectAttempts := 0 }, [.logInfo, .emitStatus true, .sendConfigHandshake])

/-- An inbound WebSocket frame as seen by the `message` handler after
`JSON.parse`: either the parse throws (`malformed`, caught by the handler's
`try`/`catch`) or it yields an object with a `type` string and a `data`
payload. -/
inductive InboundFrame where
  | malformed
  | parsed (msgType : String) (data : WaveformPayload)
  deriving Repr, DecidableEq

/-- Embedding of the `message` handler (node_helper.js lines 116-125):

    try {
        const message = JSON.parse(data);
        if (message.type === "waveform") {
            this.sendSocketNotification("WAVEFORM_DATA", message.data);
        }
    } catch (error) { console.error(...); }

Totality of this function models the `catch`: no exception escapes the
handler. -/
def onMessage (frame : InboundFrame) (s : NodeHelperState) :
    NodeHelperState × List HelperAction :=
  match frame with
  | .malformed => (s, [.logError])
  | .parsed msgType data =>
      if msgType = "waveform" then (s, [.forwardWaveform data]) else (s, [])

/-- Embedding of the `close` handler (node_helper.js lines 127-131): log, emit
disconnected status, `scheduleReconnect`. -/
def onClose (s : NodeHelperState) : NodeHelperState × List HelperAction :=
  let r := scheduleReconnect s
  (r.1, [.logInfo, .emitStatus false] ++ r.2)

/-- Embedding of the `error` handler (node_helper.js lines 133-136): log the
error, emit disconnected status.  (It does not call `scheduleReconnect`.) -/
def onError (s : NodeHelperState) : NodeHelperState × List HelperAction :=
  (s, [.logError, .emitStatus false])

/-- Embedding of the `catch` branch of `connectWebSocket` (node_helper.js lines
138-141): socket construction failed, log and `scheduleReconnect`. -/
def onConstructFailure (s : NodeHelperState) : NodeHelperState × List HelperAction :=
  let r := scheduleReconnect s
  (r.1, [.logError] ++ r.2)

/-- Embedding of `startPythonBackend` (node_helper.js lines 32-88), with
`envExists` the result of `fs.existsSync` on `python-backend/.env`:

* already running (line 33): return at once;
* `.env` missing (lines 48-52): two `console.error` entries, return before
  the spawn — nothing else happens;
* otherwise (lines 54-67): log, spawn the child, store the handle. -/
def startPythonBackend (envExists : Bool) (s : NodeHelperState) :
    NodeHelperState × List HelperAction :=
  if s.pythonProcess then (s, [])
  else if !envExists then (s, [.logError, .logError])
  else ({ s with pythonProcess := true }, [.logInfo, .spawnChild])

/-- Embedding of the Python child's `close` handler (node_helper.js lines
77-87): log the exit, clear the process handle, and create an anonymous 5000 ms
`setTimeout` for the relaunch.  The timeout handle is stored nowhere, which
`relaunchPending := true` records. -/
def childCloseHandler (s : NodeHelperState) : NodeHelperState × List HelperAction :=
  ({ s with pythonProcess := false, relaunchPending := true },
   [.logInfo, .setRelaunchTimer 5000])

/-- Firing of the relaunch `setTimeout` created by the child's close handler
(node_helper.js lines 82-86): `if (this.config) { this.startPythonBackend(); }`. -/
def relaunchTimerFire (envExists : Bool) (s : NodeHelperState) :
    NodeHelperState × List HelperAction :=
  let s1 := { s with relaunchPending := false }
  if s1.hasConfig then startPythonBackend envExists s1 else (s1, [])

/-- Embedding of `stop` (node_helper.js lines 159-176): log, clear the
reconnect timer, close and drop the socket, kill and drop the Python process.
Note what it does NOT do: it clears neither `this.config` nor the anonymous
relaunch timeout (which it holds no reference to). -/
def stop (s : NodeHelperState) : NodeHelperState × List HelperAction :=
  ({ s with reconnectTimer := false, wsSet := false, pythonProcess := false },
   [.logInfo] ++ (if s.wsSet then [.closeSocket] else [])
     ++ (if s.pythonProcess then [.killChild] else []))

/-- A helper state as right after `start`: nothing set, counter 0. -/
def idleHelperState : NodeHelperState :=
  { hasConfig := false, wsSet := false, pythonProcess := false,
    reconnectTimer := false, reconnectAttempts := 0, relaunchPending := false }

/-- A helper state in normal operation: configured, socket open, Python child
running. -/
def runningHelperState : NodeHelperState :=
  { hasConfig := true, wsSet := true, pythonProcess := true,
    reconnectTimer := false, reconnectAttempts := 0, relaunchPending := false }

/-- Concrete event list used as witness input for the smoother bound. -/
def witnessEvents : List ModuleEvent :=
  [.data ⟨some (1/2), none⟩ 0, .frame 300]

/-! ## Waveform renderer (src/unnamed/part_001, `drawWaveform`, lines 138-205)

Coordinates are real numbers; the one JavaScript operation here that can
produce a non-finite value at finite operands is division (`0/0 = NaN`,
`x/0 = ±Infinity`), so division returns `Option ℝ` with `none` for a
non-finite result.  A non-finite `t` makes every later operand non-finite
(`NaN * anything = NaN`, `Math.sin(NaN) = NaN`), hence both coordinates. -/

/-- JavaScript division of finite operands: `none` (non-finite) exactly when
the divisor is 0. -/
noncomputable def jsDiv (x y : ℝ) : Option ℝ :=
  if y = 0 then none else some (x / y)

/-- The point pushed for loop index `i` in `drawWaveform` (lines 149-161), with
`numPoints` and `margin` the locals computed before the loop:

    const t = i / (numPoints - 1);
    const x = margin + t * (width - 2 * margin);
    const w1 = Math.sin(this.wavePhase + t * 4 * Math.PI) * 0.35;
    const w2 = Math.sin(this.wavePhase * 1.7 + t * 7 * Math.PI) * 0.22;
    const w3 = Math.sin(this.wavePhase * 0.8 + t * 2 * Math.PI) * 0.5;
    const wave = (w1 + w2 + w3) * amplitude;
    const y = height / 2 + wave * height * 0.28;

When `t` is non-finite both coordinates are non-finite. -/
noncomputable def drawWaveformPoint (amplitude phase : ℝ) (width height numPoints : ℕ)
    (margin : ℝ) (i : ℕ) : Option ℝ × Option ℝ :=
  match jsDiv (i : ℝ) ((numPoints : ℝ) - 1) with
  | none => (none, none)
  | some t =>
      let x := margin + t * ((width : ℝ) - 2 * margin)
      let w1 := Real.sin (phase + t * 4 * Real.pi) * 0.35
      let w2 := Real.sin (phase * 1.7 + t * 7 * Real.pi) * 0.22
      let w3 := Real.sin (phase * 0.8 + t * 2 * Real.pi) * 0.5
      let wave := (w1 + w2 + w3) * amplitude
      let y := (height : ℝ) / 2 + wave * (height : ℝ) * 0.28
      (some x, some y)

/-- The full point sequence of `drawWaveform` (lines 144-161):
`numPoints = Math.min(200, width)`, `margin = Math.max(12, 6 + amplitude * 6)`,
one point per loop index `0 ≤ i < numPoints`. -/
noncomputable def drawWaveformPoints (amplitude phase : ℝ) (width height : ℕ) :
    List (Option ℝ × Option ℝ) :=
  let numPoints := min 200 width
  let margin := max 12 (6 + amplitude * 6)
  (List.range numPoints).map (drawWaveformPoint amplitude phase width height numPoints margin)

/-- Modelled from the spec (section 4.2 algorithm and the C4 reference
definition): the point for index `i`, written exactly as the spec states it:
`t = i/(n-1)`, `x = margin + t*(width - 2*margin)`,
`w = 0.35*sin(phase + t*4π) + 0.22*sin(1.7*phase + t*7π) + 0.5*sin(0.8*phase + t*2π)`,
`y = height/2 + w*amplitude*height*0.28`. -/
noncomputable def specPoint (amplitude phase : ℝ) (width height numPoints : ℕ)
    (margin : ℝ) (i : ℕ) : ℝ × ℝ :=
  let t := (i : ℝ) / ((numPoints : ℝ) - 1)
  let x := margin + t * ((width : ℝ) - 2 * margin)
  let w := 0.35 * Real.sin (phase + t * (4 * Real.pi))
    + 0.22 * Real.sin (1.7 * phase + t * (7 * Real.pi))
    + 0.5 * Real.sin (0.8 * phase + t * (2 * Real.pi))
  let y := (height : ℝ) / 2 + w * amplitude * (height : ℝ) * 0.28
  (x, y)

/-- Modelled from the spec: the reference point sequence, `n = min(200, width)`
points with `margin = max(12, 6 + amplitude*6)`. -/
noncomputable def specPoints (amplitude phase : ℝ) (width height : ℕ) : List (ℝ × ℝ) :=
  let numPoints := min 200 width
  let margin := max 12 (6 + amplitude * 6)
  (List.range numPoints).map (specPoint amplitude phase width height numPoints margin)

/-! ## Theorems -/

theorem sampleMax_le (m : ℚ) (e : ModuleEvent) : m ≤ sampleMax m e := by
  cases e with
  | data payload now =>
      obtain ⟨amp, ph⟩ := payload
      cases amp with
      | some a => exact le_max_left m a
      | none => exact le_refl m
  | frame now => exact le_refl m

theorem le_foldl_sampleMax (evs : List ModuleEvent) : ∀ m : ℚ, m ≤ evs.foldl sampleMax m := by
  induction evs with
  | nil => intro m; simp
  | cons e t ih =>
      intro m
      rw [List.foldl_cons]
      exact le_trans (sampleMax_le m e) (ih _)

theorem mem_le_foldl_sampleMax (evs : List ModuleEvent) (a : ℚ) (p : Option ℚ) (n : ℚ) :
    ∀ m : ℚ, ModuleEvent.data ⟨some a, p⟩ n ∈ evs → a ≤ evs.foldl sampleMax m := by
  induction evs with
  | nil => intro m h; simp at h
  | cons e t ih =>
      intro m h
      rw [List.foldl_cons]
      rcases List.mem_cons.mp h with he | ht
      · rw [← he]
        exact le_trans (le_max_right m a) (le_foldl_sampleMax t _)
      · exact ih _ ht

theorem maxSample_nonneg (evs : List ModuleEvent) : 0 ≤ maxSample evs :=
  le_foldl_sampleMax evs 0

theorem mem_le_maxSample (evs : List ModuleEvent) (a : ℚ) (p : Option ℚ) (n : ℚ)
    (h : ModuleEvent.data ⟨some a, p⟩ n ∈ evs) : a ≤ maxSample evs :=
  mem_le_foldl_sampleMax evs a p n 0 h

theorem smootherInv_step (M animationSpeed : ℚ) (s : ModuleState) (e : ModuleEvent)
    (hinv : SmootherInv M s)
    (hsamp : ∀ a p n, e = ModuleEvent.data ⟨some a, p⟩ n → 0 ≤ a ∧ a ≤ M) :
    SmootherInv M (moduleStep animationSpeed s e) := by
  obtain ⟨h1, h2, h3, h4⟩ := hinv
  cases e with
  | data payload now =>
      obtain ⟨amp, ph⟩ := payload
      cases amp with
      | some a =>
          have h := hsamp a ph now rfl
          cases ph <;>
            exact ⟨by simpa [moduleStep, updateWaveformData] using h1,
              by simpa [moduleStep, updateWaveformData] using h2,
              by simpa [moduleStep, updateWaveformData] using h.1,
              by simpa [moduleStep, updateWaveformData] using h.2⟩
      | none =>
          cases ph <;>
            exact ⟨by simpa [moduleStep, updateWaveformData] using h1,
              by simpa [moduleStep, updateWaveformData] using h2,
              by simpa [moduleStep, updateWaveformData] using h3,
              by simpa [moduleStep, updateWaveformData] using h4⟩
  | frame now =>
      have e18 : (0.18 : ℚ) = 18 / 100 := by norm_num
      have e96 : (0.96 : ℚ) = 96 / 100 := by norm_num
      refine ⟨?_, ?_, ?_, ?_⟩ <;>
        simp only [moduleStep, animateStep, SmootherInv, e18, e96]
      · linarith
      · linarith
      · split <;> linarith
      · split <;> linarith

theorem smootherInv_foldl (M animationSpeed : ℚ) (evs : List ModuleEvent) :
    ∀ s : ModuleState, SmootherInv M s →
      (∀ a p n, ModuleEvent.data ⟨some a, p⟩ n ∈ evs → 0 ≤ a ∧ a ≤ M) →
      SmootherInv M (evs.foldl (moduleStep animationSpeed) s) := by
  induction evs with
  | nil => intro s h _; simpa using h
  | cons e t ih =>
      intro s h hs
      rw [List.foldl_cons]
      refine ih _ (smootherInv_step M animationSpeed s e h ?_) ?_
      · intro a p n he
        exact hs a p n (by rw [he]; exact List.mem_cons_self _ _)
      · intro a p n hm
        exact hs a p n (List.mem_cons_of_mem _ hm)

/-- C2: starting from the initial state (`currentAmplitude = 0`,
`targetAmplitude = 0`), after any interleaving of `WAVEFORM_DATA` payloads
(every defined amplitude sample in `[0,1]`) and `animateWaveform` frames
(including idle frames that decay `targetAmplitude` by 0.96),
`currentAmplitude` never exceeds the maximum sample value seen.  This is the
claim with zero slack, which implies the claimed bound for any nonnegative
single-step contraction error term. -/
theorem smoother_never_exceeds_max (animationSpeed t0 : ℚ) (evs : List ModuleEvent)
    (hs : ∀ a p n, ModuleEvent.data ⟨some a, p⟩ n ∈ evs → 0 ≤ a ∧ a ≤ 1) :
    (moduleRun animationSpeed t0 evs).currentAmplitude ≤ maxSample evs := by
  have h0 : SmootherInv (maxSample evs)
      { wavePhase := 0, currentAmplitude := 0, targetAmplitude := 0, lastDataTime := t0 } :=
    ⟨le_refl 0, maxSample_nonneg evs, le_refl 0, maxSample_nonneg evs⟩
  have hin : ∀ a p n, ModuleEvent.data ⟨some a, p⟩ n ∈ evs → 0 ≤ a ∧ a ≤ maxSample evs :=
    fun a p n h => ⟨(hs a p n h).1, mem_le_maxSample evs a p n h⟩
  exact (smootherInv_foldl (maxSample evs) animationSpeed evs _ h0 hin).2.1

/-- Witness for C2 at the concrete event list `witnessEvents`. -/
theorem smoother_never_exceeds_max_witness :
    (∀ a p n, ModuleEvent.data ⟨some a, p⟩ n ∈ witnessEvents → 0 ≤ a ∧ a ≤ 1) ∧
    (moduleRun 1 0 witnessEvents).currentAmplitude ≤ maxSample witnessEvents := by
  have hhyp : ∀ a p n, ModuleEvent.data ⟨some a, p⟩ n ∈ witnessEvents → 0 ≤ a ∧ a ≤ 1 := by
    intro a p n h
    simp only [witnessEvents, List.mem_cons, List.not_mem_nil, or_false] at h
    rcases h with h | h
    · simp only [ModuleEvent.data.injEq, WaveformPayload.mk.injEq, Option.some.injEq] at h
      obtain ⟨⟨ha, hp⟩, hn⟩ := h
      subst ha
      norm_num
    · exact absurd h (by simp)
  exact ⟨hhyp, smoother_never_exceeds_max 1 0 witnessEvents hhyp⟩

/-- C3 counterexample: a waveform payload with amplitude 2 (outside `[0,1]`)
is stored by `updateWaveformData` as `targetAmplitude = 2`: no clamp into
`[0,1]` happens on ingest. -/
theorem no_clamp_on_ingest_counterexample :
    (updateWaveformData ⟨some 2, none⟩ 0 ⟨0, 0, 0, 0⟩).targetAmplitude = 2 ∧
    ¬ (updateWaveformData ⟨some 2, none⟩ 0 ⟨0, 0, 0, 0⟩).targetAmplitude ≤ 1 := by
  constructor
  · rfl
  · intro h
    norm_num [updateWaveformData] at h

/-- C3 amended: the amplitude of an inbound waveform message is NOT clamped on
ingest; `updateWaveformData` stores the payload's amplitude field verbatim as
`targetAmplitude`, also when the upstream producer sends a value outside
`[0,1]`. -/
theorem ingest_stores_amplitude_verbatim (data : WaveformPayload) (now : ℚ)
    (s : ModuleState) (a : ℚ) (h : data.amplitude = some a) :
    (updateWaveformData data now s).targetAmplitude = a := by
  obtain ⟨amp, ph⟩ := data
  simp only [WaveformPayload.amplitude] at h
  subst h
  cases ph <;> simp [updateWaveformData]

/-- Witness for the amended C3 at amplitude 2. -/
theorem ingest_stores_amplitude_verbatim_witness :
    (⟨some 2, none⟩ : WaveformPayload).amplitude = some 2 ∧
    (updateWaveformData ⟨some 2, none⟩ 0 ⟨0, 0, 0, 0⟩).targetAmplitude = 2 :=
  ⟨rfl, ingest_stores_amplitude_verbatim ⟨some 2, none⟩ 0 ⟨0, 0, 0, 0⟩ 2 rfl⟩

/-- C10: `updateWaveformData` updates `targetAmplitude` and `lastDataTime`
exactly when the payload's amplitude field is defined, updates `wavePhase`
exactly when the phase field is defined, and never touches
`currentAmplitude`; a payload with no amplitude field leaves the
idle-detection clock `lastDataTime` unchanged. -/
theorem updateWaveformData_effect (data : WaveformPayload) (now : ℚ) (s : ModuleState) :
    (∀ a, data.amplitude = some a →
        (updateWaveformData data now s).targetAmplitude = a ∧
        (updateWaveformData data now s).lastDataTime = now) ∧
    (data.amplitude = none →
        (updateWaveformData data now s).targetAmplitude = s.targetAmplitude ∧
        (updateWaveformData data now s).lastDataTime = s.lastDataTime) ∧
    (∀ p, data.phase = some p → (updateWaveformData data now s).wavePhase = p) ∧
    (data.phase = none → (updateWaveformData data now s).wavePhase = s.wavePhase) ∧
    (updateWaveformData data now s).currentAmplitude = s.currentAmplitude := by
  obtain ⟨amp, ph⟩ := data
  cases amp <;> cases ph <;> simp [updateWaveformData]

/-- Witness for C10 at a payload with both fields defined. -/
theorem updateWaveformData_effect_witness :
    (updateWaveformData ⟨some 1, some 2⟩ 5 ⟨0, 0, 0, 0⟩).targetAmplitude = 1 ∧
    (updateWaveformData ⟨some 1, some 2⟩ 5 ⟨0, 0, 0, 0⟩).lastDataTime = 5 ∧
    (updateWaveformData ⟨some 1, some 2⟩ 5 ⟨0, 0, 0, 0⟩).wavePhase = 2 ∧
    (updateWaveformData ⟨some 1, some 2⟩ 5 ⟨0, 0, 0, 0⟩).currentAmplitude = 0 := by
  have h := updateWaveformData_effect ⟨some 1, some 2⟩ 5 ⟨0, 0, 0, 0⟩
  exact ⟨(h.1 1 rfl).1, (h.1 1 rfl).2, h.2.2.1 2 rfl, h.2.2.2.2⟩

theorem failRun_attempts (s : NodeHelperState) :
    ∀ k, (failRun s k).reconnectAttempts = s.reconnectAttempts + k := by
  intro k
  induction k with
  | zero => simp [failRun]
  | succ k ih => simp [failRun, scheduleReconnect, ih]; omega

/-- C1: with the attempt counter starting at 0, the k-th consecutive call of
`scheduleReconnect` (k = 1, 2, 3, ...) schedules a timer with delay
`min(1000 * 2^k, 30000)` ms, giving the sequence 2000, 4000, 8000, 16000,
30000, 30000, ... ms; the open handler resets the counter to 0. -/
theorem reconnect_backoff (s : NodeHelperState) (h0 : s.reconnectAttempts = 0)
    (k : ℕ) (hk : 1 ≤ k) :
    kthReconnectDelay s k = min (1000 * 2 ^ k) 30000 ∧
    (scheduleReconnect (failRun s (k - 1))).2
      = [HelperAction.logInfo, HelperAction.setReconnectTimer (min (1000 * 2 ^ k) 30000)] ∧
    kthReconnectDelay s 1 = 2000 ∧ kthReconnectDelay s 2 = 4000 ∧
    kthReconnectDelay s 3 = 8000 ∧ kthReconnectDelay s 4 = 16000 ∧
    kthReconnectDelay s 5 = 30000 ∧ kthReconnectDelay s 6 = 30000 ∧
    ∀ s2 : NodeHelperState, (onOpen s2).1.reconnectAttempts = 0 := by
  have hfr : ∀ m, (failRun s m).reconnectAttempts = m := by
    intro m
    rw [failRun_attempts s m, h0, Nat.zero_add]
  have hgen : ∀ m, kthReconnectDelay s m = min (1000 * 2 ^ m) 30000 := by
    intro m
    unfold kthReconnectDelay reconnectDelay
    rw [hfr m]
  refine ⟨hgen k, ?_, ?_, ?_, ?_, ?_, ?_, ?_, fun s2 => rfl⟩
  · have hsub : k - 1 + 1 = k := Nat.succ_pred_eq_of_pos hk
    simp [scheduleReconnect, reconnectDelay, hfr (k - 1), hsub]
  · rw [hgen 1]; norm_num
  · rw [hgen 2]; norm_num
  · rw [hgen 3]; norm_num
  · rw [hgen 4]; norm_num
  · rw [hgen 5]; norm_num
  · rw [hgen 6]; norm_num

/-- Witness for C1: from a counter at 0, the 5th consecutive failure schedules
the capped delay. -/
theorem reconnect_backoff_witness :
    idleHelperState.reconnectAttempts = 0 ∧ 1 ≤ 5 ∧
    kthReconnectDelay idleHelperState 5 = min (1000 * 2 ^ 5) 30000 :=
  ⟨rfl, by norm_num, (reconnect_backoff idleHelperState rfl 5 (by norm_num)).1⟩

/-- C5: the message handler forwards the frame's data exactly when the frame
parses as JSON with type "waveform"; a malformed frame is only logged, any
other type is dropped silently; in every case the helper state is unchanged
and no socket-closing (or child-killing) action is emitted.  Totality of
`onMessage` models that the catch block lets no exception escape. -/
theorem message_handler_forwards_iff (frame : InboundFrame) (s : NodeHelperState) :
    (onMessage frame s).1 = s ∧
    (∀ d, HelperAction.forwardWaveform d ∈ (onMessage frame s).2 ↔
        frame = InboundFrame.parsed "waveform" d) ∧
    (frame = InboundFrame.malformed → (onMessage frame s).2 = [HelperAction.logError]) ∧
    HelperAction.closeSocket ∉ (onMessage frame s).2 ∧
    HelperAction.killChild ∉ (onMessage frame s).2 := by
  cases frame with
  | malformed => simp [onMessage]
  | parsed msgType d0 =>
      by_cases hty : msgType = "waveform"
      · subst hty
        simp [onMessage, eq_comm]
      · simp [onMessage, hty]

/-- Witness for C5: a waveform frame is forwarded, a malformed frame only
logged. -/
theorem message_handler_witness :
    HelperAction.forwardWaveform ⟨some 1, some 0⟩ ∈
      (onMessage (InboundFrame.parsed "waveform" ⟨some 1, some 0⟩) idleHelperState).2 ∧
    (onMessage InboundFrame.malformed idleHelperState).2 = [HelperAction.logError] :=
  ⟨((message_handler_forwards_iff (InboundFrame.parsed "waveform" ⟨some 1, some 0⟩)
        idleHelperState).2.1 ⟨some 1, some 0⟩).2 rfl,
    (message_handler_forwards_iff InboundFrame.malformed idleHelperState).2.2.1 rfl⟩

/-- C6 counterexample: with the .env file absent, the launch attempt emits TWO
error log entries (the missing-file error and the remediation hint,
node_helper.js lines 49-50), not exactly one. -/
theorem missing_env_single_log_counterexample :
    (startPythonBackend false idleHelperState).2.count HelperAction.logError = 2 ∧
    ¬ (startPythonBackend false idleHelperState).2.count HelperAction.logError = 1 := by
  decide

/-- C6 amended: with the .env file absent, no child is spawned, the state (and
in particular the process handle) is unchanged, no relaunch or reconnect timer
is set, and exactly TWO error log entries are emitted for the attempt. -/
theorem missing_env_aborts_launch (s : NodeHelperState) (h : s.pythonProcess = false) :
    (startPythonBackend false s).1 = s ∧
    (startPythonBackend false s).1.pythonProcess = false ∧
    (startPythonBackend false s).2.count HelperAction.logError = 2 ∧
    HelperAction.spawnChild ∉ (startPythonBackend false s).2 ∧
    (∀ d, HelperAction.setRelaunchTimer d ∉ (startPythonBackend false s).2) ∧
    (∀ d, HelperAction.setReconnectTimer d ∉ (startPythonBackend false s).2) := by
  simp [startPythonBackend, h, List.count_cons]

/-- Witness for the amended C6 at the idle helper state. -/
theorem missing_env_aborts_launch_witness :
    idleHelperState.pythonProcess = false ∧
    (startPythonBackend false idleHelperState).1 = idleHelperState ∧
    (startPythonBackend false idleHelperState).2.count HelperAction.logError = 2 :=
  ⟨rfl, (missing_env_aborts_launch idleHelperState rfl).1,
    (missing_env_aborts_launch idleHelperState rfl).2.2.1⟩

/-- C7 counterexample: at a concrete running state the error handler emits the
disconnected status but its full output contains no reconnect-timer action and
it leaves the state untouched, while the close handler does schedule a
reconnect — error and close events are not handled identically, and error
events alone schedule no reconnect. -/
theorem error_handler_no_reconnect_counterexample :
    (onError runningHelperState).2 = [HelperAction.logError, HelperAction.emitStatus false] ∧
    (onError runningHelperState).1 = runningHelperState ∧
    HelperAction.setReconnectTimer 2000 ∈ (onClose runningHelperState).2 ∧
    (onError runningHelperState).2 ≠ (onClose runningHelperState).2 := by
  decide

/-- C7 amended: a close event emits the Disconnected status and schedules a
reconnect; an error event emits the Disconnected status but does not itself
schedule a reconnect (and changes no state); a socket construction failure
schedules a reconnect without emitting a status. -/
theorem close_error_handler_effects (s : NodeHelperState) :
    (HelperAction.emitStatus false ∈ (onClose s).2 ∧
      HelperAction.setReconnectTimer (reconnectDelay (s.reconnectAttempts + 1)) ∈ (onClose s).2 ∧
      (onClose s).1.reconnectTimer = true) ∧
    (HelperAction.emitStatus false ∈ (onError s).2 ∧
      (∀ d, HelperAction.setReconnectTimer d ∉ (onError s).2) ∧
      (onError s).1 = s) ∧
    (HelperAction.emitStatus true ∉ (onConstructFailure s).2 ∧
      HelperAction.emitStatus false ∉ (onConstructFailure s).2 ∧
      HelperAction.setReconnectTimer (reconnectDelay (s.reconnectAttempts + 1))
        ∈ (onConstructFailure s).2) := by
  refine ⟨⟨?_, ?_, rfl⟩, ⟨?_, ?_, rfl⟩, ?_, ?_, ?_⟩ <;>
    simp [onClose, onError, onConstructFailure, scheduleReconnect]

/-- C8: after `stop` has released all three tracked resources (reconnect
timer, socket, child process), the killed child's close event still creates
the 5000 ms relaunch timeout, and when it fires the backend is spawned again —
`stop` clears neither `this.config` nor the untracked relaunch timeout, so the
relaunch does fire after shutdown. -/
theorem stop_then_relaunch_bug :
    ((stop runningHelperState).1.pythonProcess = false ∧
      (stop runningHelperState).1.wsSet = false ∧
      (stop runningHelperState).1.reconnectTimer = false) ∧
    (stop runningHelperState).1.hasConfig = true ∧
    HelperAction.setRelaunchTimer 5000 ∈ (childCloseHandler (stop runningHelperState).1).2 ∧
    (relaunchTimerFire true (childCloseHandler (stop runningHelperState).1).1).1.pythonProcess
      = true ∧
    HelperAction.spawnChild
      ∈ (relaunchTimerFire true (childCloseHandler (stop runningHelperState).1).1).2 := by
  decide

theorem numPoints_sub_one_ne (width : ℕ) (hw : 2 ≤ width) :
    ((min 200 width : ℕ) : ℝ) - 1 ≠ 0 := by
  have h2 : 2 ≤ min 200 width := le_min (by norm_num) hw
  have h2r : (2 : ℝ) ≤ ((min 200 width : ℕ) : ℝ) := by exact_mod_cast h2
  linarith

/-- C4: for every amplitude, phase, `width ≥ 2` and height, the point sequence
computed by `drawWaveform` equals the reference definition of the spec
(`n = min(200, width)` points, `margin = max(12, 6 + amplitude*6)`,
`t = i/(n-1)`, `x = margin + t*(width - 2*margin)`,
`y = height/2 + w*amplitude*height*0.28` with the three-harmonic `w`), every
coordinate finite; both sides are functions of `(amplitude, phase, width,
height)` alone, so identical inputs give identical point sequences. -/
theorem renderer_matches_reference (amplitude phase : ℝ) (width height : ℕ)
    (hw : 2 ≤ width) :
    drawWaveformPoints amplitude phase width height
      = (specPoints amplitude phase width height).map (fun q => (some q.1, some q.2)) := by
  unfold drawWaveformPoints specPoints
  rw [List.map_map]
  apply List.map_congr_left
  intro i hi
  have hne := numPoints_sub_one_ne width hw
  simp only [Function.comp, drawWaveformPoint, specPoint, jsDiv, if_neg hne,
    Prod.mk.injEq, Option.some.injEq]
  refine ⟨trivial, ?_⟩
  ring_nf

/-- Witness for C4 at `(amplitude, phase, width, height) = (1, 0, 3, 50)`. -/
theorem renderer_matches_reference_witness :
    (2 ≤ 3) ∧
    drawWaveformPoints 1 0 3 50
      = (specPoints 1 0 3 50).map (fun q => (some q.1, some q.2)) :=
  ⟨by norm_num, renderer_matches_reference 1 0 3 50 (by norm_num)⟩

/-- C9 counterexample: at `width = 1` the renderer computes `n = min(200, 1) = 1`
and `t = 0/(1-1) = 0/0`, which is NaN in JavaScript; both coordinates of the
single point are non-finite (`none` in the model), so the point sequence is
not made of well-defined finite numbers. -/
theorem width_one_nan_counterexample :
    drawWaveformPoints 0 0 1 100 = [(none, none)] := by
  unfold drawWaveformPoints
  norm_num [List.range_succ, drawWaveformPoint, jsDiv]

/-- C9 amended: for every amplitude, phase and height, and every `width ≥ 2`,
all computed point coordinates are well-defined finite numbers; at `width = 1`
the parameter `t = i/(n-1)` is `0/0` = NaN and the claim fails. -/
theorem renderer_points_finite (amplitude phase : ℝ) (width height : ℕ)
    (hw : 2 ≤ width) :
    ∀ pt ∈ drawWaveformPoints amplitude phase width height,
      (∃ x, pt.1 = some x) ∧ (∃ y, pt.2 = some y) := by
  intro pt hpt
  unfold drawWaveformPoints at hpt
  simp only [List.mem_map, List.mem_range] at hpt
  obtain ⟨i, hi, rfl⟩ := hpt
  have hne := numPoints_sub_one_ne width hw
  simp only [drawWaveformPoint, jsDiv, if_neg hne]
  exact ⟨⟨_, rfl⟩, ⟨_, rfl⟩⟩

/-- Witness for the amended C9: at `width = 2` the first point of the sequence
has finite coordinates. -/
theorem renderer_points_finite_witness :
    (2 ≤ 2) ∧
    ((∃ x, (drawWaveformPoint 0 0 2 100 (min 200 2) (max 12 (6 + 0 * 6)) 0).1 = some x) ∧
      (∃ y, (drawWaveformPoint 0 0 2 100 (min 200 2) (max 12 (6 + 0 * 6)) 0).2 = some y)) := by
  refine ⟨le_refl 2, renderer_points_finite 0 0 2 100 (le_refl 2) _ ?_⟩
  unfold drawWaveformPoints
  exact List.mem_map_of_mem _ (List.mem_range.mpr (by norm_num))

end GeminiWaveform
